import Mathlib

/-!
Shallow embedding of `recorder_clicks_window.py` (action recorder with visual
report).  The embedding models the event-to-record pipeline: the step ledger
(`steps`, `step_counter`, `record`), the window inspector
(`active_window_info`), the capture helpers (`screenshot_path`, `capture`,
`capture_with_optional_crop`), the annotator (`annotate_click_on_image`) and
the three input-event handlers (`on_click`, `on_scroll`, `on_press`).

External primitives (pyautogui, pygetwindow, win32gui, win32process, psutil,
PIL) are modelled by explicit environment records: each external call site
carries an `Except Unit` result chosen by the environment, standing for
"returned normally" versus "raised an exception".  The Python `try`/`except`
blocks of the source are mirrored by `match` eliminations of those `Except`
values; a call site that the source does not guard propagates the error in
the embedding.  Machine integers are `Int`/`Nat`; file paths are modelled by
their name strings relative to the session directory.
-/

namespace Recorder

/-! ### Configuration constants (source: CONFIGURAÇÕES block) -/

/-- `CROP_RADIUS = 0` — 0 means full screen.  The crop logic is additionally
stated for an arbitrary configured radius, so the functions below take the
radius as an explicit first argument; this constant is the source's value. -/
def CROP_RADIUS : Int := 0

/-- `ANNOTATE_CLICK = True`. -/
def ANNOTATE_CLICK : Bool := true

/-- `CIRCLE_RADIUS = 18`. -/
def CIRCLE_RADIUS : Int := 18

/-- `CIRCLE_WIDTH = 5`. -/
def CIRCLE_WIDTH : Int := 5

/-- `CIRCLE_COLOR = (220, 40, 40)` (solid red, no alpha channel given). -/
def CIRCLE_COLOR : Nat × Nat × Nat := (220, 40, 40)

/-- `SHADOW_COLOR = (0, 0, 0, 90)` — RGB part and alpha. -/
def SHADOW_COLOR : (Nat × Nat × Nat) × Nat := ((0, 0, 0), 90)

/-! ### Models of the Python string operations used by the source

The Lean core `String.replace`/`String.trim` do not reduce inside the kernel,
so the embedding uses equivalent character-list implementations. -/

/-- Model of Python `s.replace(pat, "")` specialised to the source's use
`str(button).replace("Button.", "")`: scan left to right, deleting each
occurrence of `pat` (structural recursion on an explicit fuel that starts at
the length of the string, which bounds the number of scan positions). -/
def replaceDropCore (pat : List Char) : Nat → List Char → List Char
  | 0, s => s
  | _ + 1, [] => []
  | fuel + 1, c :: rest =>
      if pat ≠ [] ∧ (c :: rest).take pat.length = pat then
        replaceDropCore pat fuel ((c :: rest).drop pat.length)
      else
        c :: replaceDropCore pat fuel rest

/-- Python `s.replace(pat, "")`. -/
def pyReplaceDrop (s pat : String) : String :=
  ⟨replaceDropCore pat.data s.data.length s.data⟩

/-- Python `s.strip()`: drop whitespace from both ends. -/
def pyStrip (s : String) : String :=
  ⟨((s.data.dropWhile Char.isWhitespace).reverse.dropWhile Char.isWhitespace).reverse⟩

/-- Python `s.startswith(pre)`. -/
def startswith (s pre : String) : Bool :=
  decide (s.data.take pre.data.length = pre.data)

/-- Python `a or b` on strings: `""` is falsy. -/
def pyOr (a b : String) : String :=
  if a = "" then b else a

/-! ### Window inspector (`active_window_info`)

The environment collects the results of every external call the function can
make.  An `Except.error ()` value means the corresponding Python call raised. -/

/-- The object returned by `gw.getActiveWindow()`: its `title` attribute
(possibly `None`) and its `_hWnd` attribute (`getattr(win, "_hWnd", None)`,
modelled as `Option Nat`; the Python truthiness test also rejects a zero
handle). -/
structure GwWindow where
  title : Option String
  hWnd : Option Nat
deriving DecidableEq

/-- Environment of external facts for one `active_window_info()` call. -/
structure WinEnv where
  /-- `platform.system().lower().startswith("win")`. -/
  isWindows : Bool
  /-- `gw is not None` (the `pygetwindow` import succeeded). -/
  hasGw : Bool
  /-- `win32gui` is imported and not `None`. -/
  hasWin32gui : Bool
  /-- `win32process` is imported and not `None`. -/
  hasWin32process : Bool
  /-- Result of `gw.getActiveWindow()`; `.ok none` models a `None` return. -/
  getActiveWindow : Except Unit (Option GwWindow)
  /-- Result of `win32process.GetWindowThreadProcessId(hwnd)` (the pid part). -/
  threadPid : Nat → Except Unit Nat
  /-- Result of `psutil.Process(pid).name()`. -/
  procName : Nat → Except Unit String
  /-- Result of `win32gui.GetForegroundWindow()` (0 models a null handle). -/
  foregroundWindow : Except Unit Nat
  /-- Result of `win32gui.GetWindowText(hwnd)` (`none` models `None`/falsy). -/
  windowText : Nat → Except Unit (Option String)

/-- First half of `active_window_info`: the `pygetwindow` branch.  The outer
`try` catches a raising `getActiveWindow`; the inner `try` catches a raising
pid/process-name lookup, leaving `app = ""`. -/
def gwBranch (env : WinEnv) : String × String :=
  if env.hasGw then
    match env.getActiveWindow with
    | .error _ => ("", "")
    | .ok none => ("", "")
    | .ok (some win) =>
        let title := pyStrip (win.title.getD "")
        let app :=
          if env.isWindows ∧ win.hWnd.getD 0 ≠ 0 ∧ env.hasWin32gui ∧ env.hasWin32process then
            match env.threadPid (win.hWnd.getD 0) with
            | .error _ => ""
            | .ok pid =>
                if pid ≠ 0 then
                  match env.procName pid with
                  | .error _ => ""
                  | .ok n => n
                else ""
          else ""
        (title, app)
  else ("", "")

/-- Second half of `active_window_info`: the pure-Windows fallback, entered
only when the first branch produced an empty title.  It threads the values of
`title`/`app` produced so far; every raising call is caught (outer `try`
restores the incoming pair, inner `try` keeps the incoming `app`). -/
def winFallback (env : WinEnv) (title app : String) : String × String :=
  if title = "" ∧ env.isWindows ∧ env.hasWin32gui then
    match env.foregroundWindow with
    | .error _ => (title, app)
    | .ok hwnd =>
        if hwnd ≠ 0 then
          match env.windowText hwnd with
          | .error _ => (title, app)
          | .ok txt =>
              let title2 := pyStrip (txt.getD "")
              let app2 :=
                if env.hasWin32process then
                  match env.threadPid hwnd with
                  | .error _ => app
                  | .ok pid =>
                      if pid ≠ 0 then
                        match env.procName pid with
                        | .error _ => app
                        | .ok n => n
                      else app
                else app
              (title2, app2)
        else (title, app)
  else (title, app)

/-- `active_window_info()`.  Every external call result in `WinEnv` is an
`Except` value, and each one is eliminated inside this (total) definition by
the `try`/`except` structure of the source, so the function itself never
propagates an error: this totality is the embedding of "never raises to the
caller". -/
def active_window_info (env : WinEnv) : String × String :=
  let p := gwBranch env
  winFallback env p.1 p.2

/-! ### Capture helpers (`screenshot_path`, `capture`, `capture_with_optional_crop`)

A screenshot call is modelled by a `CapEnv`: the value of
`int(time.time() * 1000)` at the call and whether
`pyautogui.screenshot(...).save(p)` succeeded.  Paths are modelled by their
file names (`Path.name`); the directory components `images/` and
`images_marked/` are re-attached by `record`, as in the source's
`f"images/..."` strings. -/

/-- Environment for one `capture` call. -/
structure CapEnv where
  /-- `int(time.time() * 1000)` — epoch milliseconds at the call. -/
  timeMs : Nat
  /-- Whether the screenshot-and-save succeeded (false models a raise). -/
  ok : Bool
deriving DecidableEq

/-- `screenshot_path(prefix="step")`, reduced to the file name
`f"{prefix}_{int(time.time()*1000)}.png"`. -/
def screenshot_path (tMs : Nat) (pre : String := "step") : String :=
  pre ++ "_" ++ toString tMs ++ ".png"

/-- A capture region `(left, top, width, height)`; `none` is full screen. -/
abbrev Region := Int × Int × Int × Int

/-- `capture(region=None)`: returns the saved file's name, or propagates the
capture error (the source has no handler here). -/
def capture (env : CapEnv) (_region : Option Region := none) : Except Unit String :=
  if env.ok then .ok (screenshot_path env.timeMs) else .error ()

/-- The region computed by `capture_with_optional_crop`: `none` means the
full-screen call.  Mirrors
`if CROP_RADIUS and (x is not None and y is not None)` with
`left = max(0, x - CROP_RADIUS)`, `top = max(0, y - CROP_RADIUS)` and
`width = height = CROP_RADIUS * 2`. -/
def crop_region (cropRadius : Int) (x y : Option Int) : Option Region :=
  if cropRadius ≠ 0 then
    match x, y with
    | some xv, some yv =>
        some (max 0 (xv - cropRadius), max 0 (yv - cropRadius),
              cropRadius * 2, cropRadius * 2)
    | _, _ => none
  else none

/-- `capture_with_optional_crop(x, y)`, with the configured radius explicit. -/
def capture_with_optional_crop (cropRadius : Int) (env : CapEnv)
    (x y : Option Int) : Except Unit String :=
  capture env (crop_region cropRadius x y)

/-- The square region the spec describes: side `2 × radius`, centered on
`(x, y)`.  This definition follows the spec's words, for comparison with
`crop_region`, which is translated from the source. -/
def centered_square_spec (radius xv yv : Int) : Region :=
  (xv - radius, yv - radius, radius * 2, radius * 2)

/-! ### Annotator (`annotate_click_on_image`)

An image is its dimensions plus a pixel function; pixels are RGB triples,
since the raw captures carry no alpha (the source's RGBA round trip
`convert("RGBA") … convert("RGB")` is the identity on them, so the flattened
save keeps the base pixels outside the drawn marks).  The external
`ImageDraw.ellipse(bbox, outline=c, width=w)` primitive is modelled as
painting exactly the pixels of the circular stroke of width `w` lying just
inside the circle inscribed in `bbox`; the colour with alpha 90 blends over
the existing pixel, the solid colour overwrites it. -/

/-- A raster image: width, height and pixel map. -/
structure Img where
  w : Nat
  h : Nat
  px : Int → Int → Nat × Nat × Nat

/-- Squared distance between `(x, y)` and the centre `(cx, cy)`. -/
def dist2 (cx cy x y : Int) : Int :=
  (x - cx) * (x - cx) + (y - cy) * (y - cy)

/-- Whether pixel `(x, y)` lies on the outline stroke of the circle of radius
`r` and stroke width `w` centred at `(cx, cy)` (the stroke extends inward
from the boundary, as PIL draws it). -/
def onRing (cx cy r w x y : Int) : Bool :=
  decide ((r - w) * (r - w) < dist2 cx cy x y) && decide (dist2 cx cy x y ≤ r * r)

/-- Model of one `draw.ellipse(..., outline=…, width=…)` call on a square
bounding box centred at `(cx, cy)`: repaint exactly the stroke pixels. -/
def drawRing (im : Img) (cx cy r w : Int)
    (paint : Nat × Nat × Nat → Nat × Nat × Nat) : Img :=
  { im with px := fun x y => if onRing cx cy r w x y then paint (im.px x y) else im.px x y }

/-- Alpha-blend `s` with alpha `a` (out of 255) over base colour `c`. -/
def blend (c s : Nat × Nat × Nat) (a : Nat) : Nat × Nat × Nat :=
  ((c.1 * (255 - a) + s.1 * a) / 255,
   (c.2.1 * (255 - a) + s.2.1 * a) / 255,
   (c.2.2 * (255 - a) + s.2.2 * a) / 255)

/-- `annotate_click_on_image(src, dst, click_xy)` as an image transformer:
with a point, draw the shadow ring (radius `CIRCLE_RADIUS + 2`, width
`CIRCLE_WIDTH + 2`, translucent black) and then the solid ring (radius
`CIRCLE_RADIUS`, width `CIRCLE_WIDTH`, red); with `None`, the RGBA/RGB round
trip alone, which is the identity on the alpha-free captures. -/
def annotate_click_on_image (im : Img) (click : Option (Int × Int)) : Img :=
  match click with
  | none => im
  | some (cx, cy) =>
      drawRing
        (drawRing im cx cy (CIRCLE_RADIUS + 2) (CIRCLE_WIDTH + 2)
          (fun c => blend c SHADOW_COLOR.1 SHADOW_COLOR.2))
        cx cy CIRCLE_RADIUS CIRCLE_WIDTH (fun _ => CIRCLE_COLOR)

/-! ### Step ledger (`Step`, `steps`, `step_counter`, `record`) -/

/-- One recorded step (dataclass `Step`). -/
structure Step where
  idx : Nat
  ts : String
  action : String
  x : Option Int
  y : Option Int
  window_title : String
  app_name : String
  img_rel : String
  img_mark_rel : String
deriving DecidableEq

/-- The mutable recorder state: the global `step_counter` and `steps` list. -/
structure RecState where
  step_counter : Nat
  steps : List Step
deriving DecidableEq

/-- The initial globals: `steps = []`, `step_counter = 0`. -/
def initState : RecState :=
  { step_counter := 0, steps := [] }

/-- Environment of external facts for one step-producing event: the capture
call, the window-inspector calls, `now_human()`, and whether the
`annotate_click_on_image` file operation succeeded (false models a raise of
any of its PIL I/O steps, caught by `record`'s `try`). -/
structure EventEnv where
  cap : CapEnv
  win : WinEnv
  tsHuman : String
  annotateOk : Bool

/-- `record(action, x, y, img_path)`: executed entirely inside `with lock:`.
Increments the counter, inspects the window, conditionally annotates
(falling back to `marked_rel = ""` when annotation raises), builds the
`Step` and appends it.  The trailing `print` is a pure side effect and is
modelled in the lock-trace section below. -/
def record (env : EventEnv) (action : String) (x y : Option Int)
    (imgName : String) (st : RecState) : RecState :=
  let counter := st.step_counter + 1
  let ta := active_window_info env.win
  let marked_rel :=
    if ANNOTATE_CLICK && startswith action "click" then
      if env.annotateOk then "images_marked/" ++ imgName else ""
    else ""
  let s : Step :=
    { idx := counter
      ts := env.tsHuman
      action := action
      x := x
      y := y
      window_title := ta.1
      app_name := ta.2
      img_rel := "images/" ++ imgName
      img_mark_rel := pyOr marked_rel ("images/" ++ imgName) }
  { step_counter := counter, steps := st.steps ++ [s] }

/-! ### Input event handlers (`on_click`, `on_scroll`, `on_press`)

`on_click` and `on_scroll` call `capture_with_optional_crop` with no
exception handler: a capture error propagates out of the handler (result
`.error ()`), so no step is recorded for that event.  `on_press` wraps its
whole body in `try`/`except`, printing the error. -/

/-- `on_click(x, y, button, pressed)`.  `button` is `str(button)`, e.g.
`"Button.left"`. -/
def on_click (cropRadius : Int) (env : EventEnv) (x y : Int) (button : String)
    (pressed : Bool) (st : RecState) : Except Unit RecState :=
  if !pressed then .ok st
  else
    let btn := pyReplaceDrop button "Button."
    match capture_with_optional_crop cropRadius env.cap (some x) (some y) with
    | .error e => .error e
    | .ok img => .ok (record env ("click " ++ btn) (some x) (some y) img st)

/-- `on_scroll(x, y, dx, dy)`. -/
def on_scroll (cropRadius : Int) (env : EventEnv) (x y dx dy : Int)
    (st : RecState) : Except Unit RecState :=
  match capture_with_optional_crop cropRadius env.cap (some x) (some y) with
  | .error e => .error e
  | .ok img =>
      .ok (record env ("scroll dx=" ++ toString dx ++ " dy=" ++ toString dy)
        (some x) (some y) img st)

/-- The keys the keyboard handler distinguishes. -/
inductive Key where
  | esc
  | f9
  | other
deriving DecidableEq

/-- `on_press(key)`.  Returns the new `running` flag, the new recorder state,
whether the handler returned `False` (stopping the keyboard listener), and
whether the `except` branch printed an error.  A capture error on the F9 path
is caught by the handler's own `try`. -/
def on_press (env : EventEnv) (key : Key) (running : Bool) (st : RecState) :
    Bool × RecState × Bool × Bool :=
  match key with
  | .esc => (false, st, true, false)
  | .f9 =>
      match capture env.cap none with
      | .error _ => (running, st, false, true)
      | .ok img => (running, record env "manual screenshot" none none img st, false, false)
  | .other => (running, st, false, false)

/-! ### Sessions as interleavings of events

Every mutation of the shared ledger happens inside `record`, which holds the
single lock from the counter increment through the append, so an arbitrary
interleaving of the two listener threads acts on the ledger as some sequence
of atomic handler invocations.  A session is therefore modelled as a list of
events, each carrying its own external environment. -/

/-- One OS input event together with the external world it observes. -/
inductive Event where
  | click (env : EventEnv) (x y : Int) (button : String) (pressed : Bool)
  | scroll (env : EventEnv) (x y dx dy : Int)
  | press (env : EventEnv) (key : Key)

/-- Deliver one event: an uncaught handler exception (capture failure on the
click/scroll paths) leaves the recorder state unchanged. -/
def handleEvent (cropRadius : Int) (s : Bool × RecState) (ev : Event) :
    Bool × RecState :=
  match ev with
  | .click env x y b pressed =>
      match on_click cropRadius env x y b pressed s.2 with
      | .ok st => (s.1, st)
      | .error _ => s
  | .scroll env x y dx dy =>
      match on_scroll cropRadius env x y dx dy s.2 with
      | .ok st => (s.1, st)
      | .error _ => s
  | .press env k =>
      let r := on_press env k s.1 s.2
      (r.1, r.2.1)

/-- Run a session: fold the event sequence over the initial state. -/
def runEvents (cropRadius : Int) (evs : List Event) (s : Bool × RecState) :
    Bool × RecState :=
  evs.foldl (handleEvent cropRadius) s

/-! ### Lock scope of one step's construction

The side effects of one step-producing event, in source order.  `on_click`
(and `on_scroll`, and the F9 path of `on_press`) first runs the capture and
only then calls `record`, whose body is the `with lock:` block: counter
increment, window inspection, conditional annotation, append, print. -/

/-- The individual side effects of one step's construction. -/
inductive MicroOp where
  | capture
  | lockAcquire
  | assignIndex
  | inspect
  | annotate
  | append
  | printLine
  | lockRelease
deriving DecidableEq

/-- The trace of `record(action, …)`: everything inside `with lock:`, with
the annotation only on the click path (`ANNOTATE_CLICK and
action.startswith("click")`). -/
def record_trace (isClick : Bool) : List MicroOp :=
  [MicroOp.lockAcquire, MicroOp.assignIndex, MicroOp.inspect] ++
    (if isClick then [MicroOp.annotate] else []) ++
    [MicroOp.append, MicroOp.printLine, MicroOp.lockRelease]

/-- Trace of `on_click` on a press event: capture, then `record`. -/
def on_click_trace : List MicroOp :=
  MicroOp.capture :: record_trace true

/-- Trace of `on_scroll`: capture, then `record`. -/
def on_scroll_trace : List MicroOp :=
  MicroOp.capture :: record_trace false

/-- Trace of the F9 path of `on_press`: capture, then `record`. -/
def on_press_f9_trace : List MicroOp :=
  MicroOp.capture :: record_trace false

/-- The operations of a trace executed while the lock is held, scanning with
the current hold depth `d`. -/
def underLock : List MicroOp → Nat → List MicroOp
  | [], _ => []
  | op :: rest, d =>
      match op with
      | .lockAcquire => underLock rest (d + 1)
      | .lockRelease => underLock rest (d - 1)
      | _ => (if 0 < d then [op] else []) ++ underLock rest d

/-! ### Concrete environments for witnesses and counterexamples -/

/-- A window environment in which every lookup succeeds on a non-Windows
platform (pygetwindow reports a "Notepad" window). -/
def okWinEnv : WinEnv :=
  { isWindows := false
    hasGw := true
    hasWin32gui := false
    hasWin32process := false
    getActiveWindow := .ok (some { title := some "Notepad", hWnd := none })
    threadPid := fun _ => .error ()
    procName := fun _ => .error ()
    foregroundWindow := .error ()
    windowText := fun _ => .error () }

/-- A window environment in which every external lookup raises. -/
def failWinEnv : WinEnv :=
  { isWindows := true
    hasGw := true
    hasWin32gui := true
    hasWin32process := true
    getActiveWindow := .error ()
    threadPid := fun _ => .error ()
    procName := fun _ => .error ()
    foregroundWindow := .error ()
    windowText := fun _ => .error () }

/-- An event environment whose capture succeeds at the given millisecond. -/
def okEnv (tMs : Nat) : EventEnv :=
  { cap := { timeMs := tMs, ok := true }
    win := okWinEnv
    tsHuman := "2026-10-12 00:00:00"
    annotateOk := true }

/-- An event environment whose capture raises. -/
def failCapEnv : EventEnv :=
  { cap := { timeMs := 0, ok := false }
    win := okWinEnv
    tsHuman := "2026-10-12 00:00:00"
    annotateOk := true }

/-- An event environment whose capture succeeds but whose window inspector
fails completely. -/
def failInspectEnv : EventEnv :=
  { cap := { timeMs := 0, ok := true }
    win := failWinEnv
    tsHuman := "2026-10-12 00:00:00"
    annotateOk := true }

/-- The last step of the ledger, if any. -/
def lastStep (st : RecState) : Option Step :=
  st.steps.getLast?

/-- The last ledger step of a handler result; `none` when the handler
propagated an exception. -/
def exceptLastStep (r : Except Unit RecState) : Option Step :=
  match r with
  | .error _ => none
  | .ok st => lastStep st

/-- A session of two clicks whose captures fall in the same epoch
millisecond (5). -/
def sameMsSession : List Event :=
  [Event.click (okEnv 5) 1 2 "Button.left" true,
   Event.click (okEnv 5) 3 4 "Button.left" true]

/-- The ledger invariant the spec states: the indices of the recorded steps
are exactly `1, …, N` in order, and the counter equals the ledger length. -/
def ledgerOk (st : RecState) : Prop :=
  st.steps.map (fun s => s.idx) = List.range' 1 st.steps.length ∧
    st.step_counter = st.steps.length

/-- A small uniform test image for concrete evaluations. -/
def testImg : Img :=
  { w := 4, h := 4, px := fun _ _ => (1, 2, 3) }

/-! ### Injectivity of the decimal rendering used by `screenshot_path`

`screenshot_path` embeds `int(time.time()*1000)` in the file name via the
decimal numeral; the following round trip shows distinct milliseconds give
distinct names. -/

/-- Numeric value of a decimal digit character (inverse of `Nat.digitChar`
on digits below 10). -/
def digitVal (c : Char) : Nat :=
  c.toNat - 48

/-- Value of a decimal digit string, most significant first. -/
def decVal (l : List Char) : Nat :=
  l.foldl (fun a c => 10 * a + digitVal c) 0

lemma digitVal_digitChar {d : Nat} (h : d < 10) :
    digitVal (Nat.digitChar d) = d := by
  interval_cases d <;> rfl

lemma toDigitsCore_append (f : Nat) :
    ∀ (n : Nat) (ds : List Char),
      Nat.toDigitsCore 10 f n ds = Nat.toDigitsCore 10 f n [] ++ ds := by
  induction f with
  | zero => intro n ds; simp [Nat.toDigitsCore]
  | succ f ih =>
      intro n ds
      simp only [Nat.toDigitsCore]
      by_cases h : n / 10 = 0
      · simp [h]
      · simp only [h, if_false]
        rw [ih (n / 10) (Nat.digitChar (n % 10) :: ds),
          ih (n / 10) [Nat.digitChar (n % 10)]]
        simp

lemma decVal_append (l : List Char) (c : Char) :
    decVal (l ++ [c]) = 10 * decVal l + digitVal c := by
  simp [decVal, List.foldl_append]

lemma decVal_toDigitsCore :
    ∀ (f n : Nat), n < f → decVal (Nat.toDigitsCore 10 f n []) = n := by
  intro f
  induction f with
  | zero => intro n h; omega
  | succ f ih =>
      intro n h
      simp only [Nat.toDigitsCore]
      by_cases h0 : n / 10 = 0
      · have hn : n < 10 := by omega
        have hm : n % 10 = n := Nat.mod_eq_of_lt hn
        simp [h0, decVal, hm, digitVal_digitChar hn]
      · simp only [h0, if_false]
        rw [toDigitsCore_append, decVal_append,
          ih (n / 10) (by omega), digitVal_digitChar (Nat.mod_lt _ (by omega)),
          Nat.div_add_mod]

lemma decVal_toDigits (n : Nat) : decVal (Nat.toDigits 10 n) = n :=
  decVal_toDigitsCore (n + 1) n (Nat.lt_succ_self n)

lemma natRepr_injective : Function.Injective Nat.repr := by
  intro m n h
  have hd : Nat.toDigits 10 m = Nat.toDigits 10 n := by
    have h2 := congrArg String.data h
    simpa [Nat.repr, List.asString] using h2
  calc m = decVal (Nat.toDigits 10 m) := (decVal_toDigits m).symm
    _ = decVal (Nat.toDigits 10 n) := by rw [hd]
    _ = n := decVal_toDigits n

lemma screenshot_path_injective {t1 t2 : Nat}
    (h : screenshot_path t1 = screenshot_path t2) : t1 = t2 := by
  have hdata : ("step_" ++ toString t1 ++ ".png").data
      = ("step_" ++ toString t2 ++ ".png").data := by
    simpa [screenshot_path] using congrArg String.data h
  simp only [String.data_append] at hdata
  have h1 : (toString t1 : String).data = (toString t2 : String).data := by
    have hfront := List.append_cancel_right hdata
    exact List.append_cancel_left hfront
  apply natRepr_injective
  exact congrArg String.mk h1

/-! ### Supporting lemmas -/

lemma string_append_left_cancel {pre s t : String} (h : pre ++ s = pre ++ t) :
    s = t := by
  have hd := congrArg String.data h
  rw [String.data_append, String.data_append] at hd
  exact congrArg String.mk (List.append_cancel_left hd)

lemma marked_ne_empty (img : String) : "images_marked/" ++ img ≠ "" := by
  intro h
  have hd := congrArg String.data h
  rw [String.data_append] at hd
  have h2 : ("images_marked/" : String).data = [] := (List.append_eq_nil.mp hd).1
  exact absurd h2 (by decide)

lemma record_steps_eq (env : EventEnv) (a : String) (x y : Option Int)
    (img : String) (st : RecState) :
    (record env a x y img st).steps = st.steps ++
      [{ idx := st.step_counter + 1
         ts := env.tsHuman
         action := a
         x := x
         y := y
         window_title := (active_window_info env.win).1
         app_name := (active_window_info env.win).2
         img_rel := "images/" ++ img
         img_mark_rel := pyOr
           (if ANNOTATE_CLICK && startswith a "click" then
              if env.annotateOk then "images_marked/" ++ img else ""
            else "")
           ("images/" ++ img) }] := rfl

lemma record_counter_eq (env : EventEnv) (a : String) (x y : Option Int)
    (img : String) (st : RecState) :
    (record env a x y img st).step_counter = st.step_counter + 1 := rfl

lemma ledgerOk_record (env : EventEnv) (a : String) (x y : Option Int)
    (img : String) (st : RecState) (h : ledgerOk st) :
    ledgerOk (record env a x y img st) := by
  obtain ⟨h1, h2⟩ := h
  constructor
  · rw [record_steps_eq, List.map_append, List.length_append, h1, h2]
    simp [List.range'_concat, Nat.add_comm]
  · rw [record_counter_eq, record_steps_eq, List.length_append, h2]
    simp

lemma ledgerOk_handleEvent (cr : Int) (s : Bool × RecState) (ev : Event)
    (h : ledgerOk s.2) : ledgerOk (handleEvent cr s ev).2 := by
  cases ev with
  | click env x y b pressed =>
      cases pressed with
      | false => simpa [handleEvent, on_click] using h
      | true =>
          cases hc : env.cap.ok with
          | false =>
              simpa [handleEvent, on_click, capture_with_optional_crop, capture, hc] using h
          | true =>
              have := ledgerOk_record env
                ("click " ++ pyReplaceDrop b "Button.") (some x) (some y)
                (screenshot_path env.cap.timeMs) s.2 h
              simpa [handleEvent, on_click, capture_with_optional_crop, capture, hc] using this
  | scroll env x y dx dy =>
      cases hc : env.cap.ok with
      | false =>
          simpa [handleEvent, on_scroll, capture_with_optional_crop, capture, hc] using h
      | true =>
          have := ledgerOk_record env
            ("scroll dx=" ++ toString dx ++ " dy=" ++ toString dy) (some x) (some y)
            (screenshot_path env.cap.timeMs) s.2 h
          simpa [handleEvent, on_scroll, capture_with_optional_crop, capture, hc] using this
  | press env k =>
      cases k with
      | esc => simpa [handleEvent, on_press] using h
      | other => simpa [handleEvent, on_press] using h
      | f9 =>
          cases hc : env.cap.ok with
          | false => simpa [handleEvent, on_press, capture, hc] using h
          | true =>
              have := ledgerOk_record env "manual screenshot" none none
                (screenshot_path env.cap.timeMs) s.2 h
              simpa [handleEvent, on_press, capture, hc] using this

lemma ledgerOk_runEvents (cr : Int) (evs : List Event) (s : Bool × RecState)
    (h : ledgerOk s.2) : ledgerOk (runEvents cr evs s).2 := by
  induction evs generalizing s with
  | nil => simpa [runEvents] using h
  | cons ev rest ih =>
      have hstep := ledgerOk_handleEvent cr s ev h
      simpa [runEvents] using ih (handleEvent cr s ev) hstep

lemma onRing_eq_false_of_outside {cx cy r w x y : Int} (hr0 : 0 ≤ r)
    (hr : r ≤ 20)
    (h : x < cx - 20 ∨ cx + 20 < x ∨ y < cy - 20 ∨ cy + 20 < y) :
    onRing cx cy r w x y = false := by
  have hrr : r * r ≤ 400 := by nlinarith
  have hd : r * r < dist2 cx cy x y := by
    unfold dist2
    rcases h with h | h | h | h
    · nlinarith [mul_self_nonneg (y - cy), mul_self_nonneg (x - cx + 20)]
    · nlinarith [mul_self_nonneg (y - cy), mul_self_nonneg (x - cx - 20)]
    · nlinarith [mul_self_nonneg (x - cx), mul_self_nonneg (y - cy + 20)]
    · nlinarith [mul_self_nonneg (x - cx), mul_self_nonneg (y - cy - 20)]
  have : ¬ dist2 cx cy x y ≤ r * r := by omega
  simp [onRing, this]

lemma gwBranch_app_of_not_windows (env : WinEnv) (h : env.isWindows = false) :
    (gwBranch env).2 = "" := by
  unfold gwBranch
  by_cases hg : env.hasGw
  · rcases hga : env.getActiveWindow with e | mw
    · simp [hg, hga]
    · cases mw with
      | none => simp [hg, hga]
      | some win => simp [hg, hga, h]
  · simp [hg]

lemma winFallback_of_not_windows (env : WinEnv) (title app : String)
    (h : env.isWindows = false) : winFallback env title app = (title, app) := by
  unfold winFallback
  simp [h]

lemma active_window_info_fail (env : WinEnv)
    (h1 : env.getActiveWindow = Except.error ())
    (h2 : env.foregroundWindow = Except.error ()) :
    active_window_info env = ("", "") := by
  have hg : gwBranch env = ("", "") := by
    unfold gwBranch
    by_cases hgw : env.hasGw
    · simp [hgw, h1]
    · simp [hgw]
  unfold active_window_info
  rw [hg]
  show winFallback env "" "" = ("", "")
  unfold winFallback
  rw [h2]
  split_ifs <;> rfl

/-! ### Claim theorems -/

/-- Claim C1: for every session — every interleaving of the two listener
threads, modelled as an arbitrary sequence of events because each ledger
mutation is one atomic `record` call — the ledger's step indices form
exactly the contiguous sequence `1..N`, so each step's index equals its
1-based position. -/
theorem c1_ledger_indices_contiguous (cropRadius : Int) (evs : List Event) :
    ((runEvents cropRadius evs (true, initState)).2.steps.map (fun s => s.idx))
      = List.range' 1 (runEvents cropRadius evs (true, initState)).2.steps.length :=
  (ledgerOk_runEvents cropRadius evs (true, initState) ⟨rfl, rfl⟩).1

/-- Claim C2, counterexample: in the click handler's trace the screen
capture occurs (it is the first operation) but is not among the operations
executed while the lock is held, refuting "the entire construction —
capture through append — is performed while holding the mutual-exclusion
boundary". -/
theorem c2_counterexample_capture_outside_lock :
    MicroOp.capture ∈ on_click_trace ∧
      MicroOp.capture ∉ underLock on_click_trace 0 := by
  decide

/-- Claim C2, amended: for each step-producing event the lock is held for
index assignment, window inspection, (for clicks) annotation, the ledger
append and the console print — but the screen capture runs before the lock
is acquired, as the first operation of the handler. -/
theorem c2_lock_scope :
    underLock on_click_trace 0
        = [MicroOp.assignIndex, MicroOp.inspect, MicroOp.annotate,
           MicroOp.append, MicroOp.printLine] ∧
    underLock on_scroll_trace 0
        = [MicroOp.assignIndex, MicroOp.inspect, MicroOp.append, MicroOp.printLine] ∧
    underLock on_press_f9_trace 0
        = [MicroOp.assignIndex, MicroOp.inspect, MicroOp.append, MicroOp.printLine] ∧
    on_click_trace.head? = some MicroOp.capture ∧
    on_scroll_trace.head? = some MicroOp.capture ∧
    on_press_f9_trace.head? = some MicroOp.capture := by
  decide

/-- Claim C3, counterexample: a left-button press records the action
`"click left"` (a space, not the claimed `"click:left"`), and a scroll with
`dx=0, dy=-3` records `"scroll dx=0 dy=-3"` (not `"scroll:0,-3"`). -/
theorem c3_counterexample_action_forms :
    (exceptLastStep (on_click 0 (okEnv 5) 100 200 "Button.left" true initState)).map
        (fun s => s.action) = some "click left" ∧
    "click left" ≠ "click:left" ∧
    (exceptLastStep (on_scroll 0 (okEnv 5) 50 50 0 (-3) initState)).map
        (fun s => s.action) = some "scroll dx=0 dy=-3" ∧
    "scroll dx=0 dy=-3" ≠ "scroll:0,-3" := by
  decide

/-- Claim C3, amended: every recorded step's action is one of the tagged
forms `click <button>` (button name with the `Button.` prefix removed),
`scroll dx=<dx> dy=<dy>`, or `manual screenshot`; in particular a
left-button press yields exactly `"click left"` and a scroll with
`dx=0, dy=-3` yields exactly `"scroll dx=0 dy=-3"`. -/
theorem c3_action_forms (cr : Int) (env : EventEnv) (x y dx dy : Int)
    (button : String) (r : Bool) (st : RecState) (h : env.cap.ok = true) :
    (exceptLastStep (on_click cr env x y button true st)).map (fun s => s.action)
        = some ("click " ++ pyReplaceDrop button "Button.") ∧
    (exceptLastStep (on_scroll cr env x y dx dy st)).map (fun s => s.action)
        = some ("scroll dx=" ++ toString dx ++ " dy=" ++ toString dy) ∧
    (lastStep (on_press env Key.f9 r st).2.1).map (fun s => s.action)
        = some "manual screenshot" := by
  refine ⟨?_, ?_, ?_⟩ <;>
    simp [on_click, on_scroll, on_press, capture_with_optional_crop, capture, h,
      exceptLastStep, lastStep, record_steps_eq, List.getLast?_concat]

/-- Witness for `c3_action_forms` at a concrete successful environment. -/
theorem c3_action_forms_witness :
    (exceptLastStep (on_click 0 (okEnv 7) 1 2 "Button.right" true initState)).map
        (fun s => s.action) = some ("click " ++ pyReplaceDrop "Button.right" "Button.") :=
  (c3_action_forms 0 (okEnv 7) 1 2 3 4 "Button.right" true initState rfl).1

/-- Claim C4, counterexample: when the capture raises during a click or a
scroll, the handler body has no exception handler, so the error propagates
out of the handler (stopping that pynput listener) instead of being logged;
the claim's "the error is logged and … never stops either listener" fails. -/
theorem c4_counterexample_capture_error_propagates :
    on_click 0 failCapEnv 5 6 "Button.left" true initState = .error () ∧
    on_scroll 0 failCapEnv 5 6 0 (-3) initState = .error () :=
  ⟨rfl, rfl⟩

/-- Claim C4, amended: a capture failure never appends a step; on the
manual-capture (F9) key the handler's `try` catches and logs the error and
listening continues, but on a click or scroll the exception propagates
uncaught out of the handler and nothing is logged by the recorder. -/
theorem c4_capture_error_behavior (cr : Int) (env : EventEnv) (x y dx dy : Int)
    (button : String) (r : Bool) (st : RecState) (h : env.cap.ok = false) :
    on_click cr env x y button true st = .error () ∧
    on_scroll cr env x y dx dy st = .error () ∧
    on_press env Key.f9 r st = (r, st, false, true) := by
  refine ⟨?_, ?_, ?_⟩ <;>
    simp [on_click, on_scroll, on_press, capture_with_optional_crop, capture, h]

/-- Witness for `c4_capture_error_behavior` at a concrete failing capture. -/
theorem c4_capture_error_behavior_witness :
    on_press failCapEnv Key.f9 true initState = (true, initState, false, true) :=
  (c4_capture_error_behavior 0 failCapEnv 1 2 3 4 "Button.left" true initState rfl).2.2

/-- Claim C5, counterexample: two clicks whose captures fall in the same
epoch millisecond produce two distinct steps with the same `img_rel`
(`images/step_5.png`), refuting uniqueness of `image_ref` "including two
events whose captures occur within the same clock millisecond". -/
theorem c5_counterexample_same_ms_collision :
    ((runEvents 0 sameMsSession (true, initState)).2.steps.map (fun s => s.img_rel))
        = ["images/step_5.png", "images/step_5.png"] ∧
    ¬ ((runEvents 0 sameMsSession (true, initState)).2.steps.map
        (fun s => s.img_rel)).Nodup ∧
    ((runEvents 0 sameMsSession (true, initState)).2.steps.length = 2) := by
  decide

/-- Claim C5, amended: a step's `image_ref` is `images/step_<t>.png` where
`t` is the capture's epoch millisecond, so the refs of two steps are
distinct whenever their capture milliseconds differ; two captures within
the same clock millisecond receive the same ref (the second file overwrites
the first). -/
theorem c5_image_ref_unique_distinct_ms (t1 t2 : Nat) (cr : Int)
    (env : EventEnv) (x y : Int) (button : String) (st : RecState)
    (h : t1 ≠ t2) (hok : env.cap.ok = true) :
    ("images/" ++ screenshot_path t1 : String) ≠ "images/" ++ screenshot_path t2 ∧
    (exceptLastStep (on_click cr env x y button true st)).map (fun s => s.img_rel)
        = some ("images/" ++ screenshot_path env.cap.timeMs) := by
  constructor
  · intro hEq
    exact h (screenshot_path_injective (string_append_left_cancel hEq))
  · simp [on_click, capture_with_optional_crop, capture, hok,
      exceptLastStep, lastStep, record_steps_eq, List.getLast?_concat]

/-- Witness for `c5_image_ref_unique_distinct_ms` at distinct concrete
milliseconds. -/
theorem c5_image_ref_unique_distinct_ms_witness :
    ("images/" ++ screenshot_path 5 : String) ≠ "images/" ++ screenshot_path 6 :=
  (c5_image_ref_unique_distinct_ms 5 6 0 (okEnv 5) 1 2 "Button.left" initState
    (by decide) rfl).1

/-- Claim C6: a recorded step is always appended (annotation failure never
prevents the append), its `img_mark_rel` is the annotated path
`images_marked/<name>` exactly when the action is a click and annotation
succeeded, and otherwise (non-click action, or the annotation raised)
equals its `img_rel` (`images/<name>`). -/
theorem c6_marked_image_fallback (env : EventEnv) (a : String) (x y : Option Int)
    (img : String) (st : RecState) :
    (record env a x y img st).steps.length = st.steps.length + 1 ∧
    (startswith a "click" = true → env.annotateOk = true →
      (lastStep (record env a x y img st)).map (fun s => s.img_mark_rel)
        = some ("images_marked/" ++ img)) ∧
    (startswith a "click" = false →
      (lastStep (record env a x y img st)).map (fun s => s.img_mark_rel)
        = some ("images/" ++ img)) ∧
    (env.annotateOk = false →
      (lastStep (record env a x y img st)).map (fun s => s.img_mark_rel)
        = some ("images/" ++ img)) ∧
    (lastStep (record env a x y img st)).map (fun s => s.img_rel)
        = some ("images/" ++ img) := by
  refine ⟨?_, ?_, ?_, ?_, ?_⟩
  · rw [record_steps_eq, List.length_append]; rfl
  · intro h1 h2
    simp [lastStep, record_steps_eq, List.getLast?_concat, ANNOTATE_CLICK, h1, h2,
      pyOr, marked_ne_empty img]
  · intro h1
    simp [lastStep, record_steps_eq, List.getLast?_concat, ANNOTATE_CLICK, h1, pyOr]
  · intro h1
    by_cases hcl : startswith a "click"
    · simp [lastStep, record_steps_eq, List.getLast?_concat, ANNOTATE_CLICK, hcl, h1, pyOr]
    · simp [lastStep, record_steps_eq, List.getLast?_concat, ANNOTATE_CLICK, hcl, pyOr]
  · simp [lastStep, record_steps_eq, List.getLast?_concat]

/-- Witness for `c6_marked_image_fallback`: a click with successful
annotation gets the marked path; the scroll fallback case has
`img_mark_rel = img_rel`. -/
theorem c6_marked_image_fallback_witness :
    (lastStep (record (okEnv 1) "click left" (some 1) (some 2) "step_1.png" initState)).map
        (fun s => s.img_mark_rel) = some ("images_marked/step_1.png") ∧
    (lastStep (record (okEnv 1) "scroll dx=0 dy=-3" (some 1) (some 2) "step_1.png"
        initState)).map (fun s => s.img_mark_rel) = some ("images/step_1.png") :=
  ⟨(c6_marked_image_fallback (okEnv 1) "click left" (some 1) (some 2) "step_1.png"
      initState).2.1 (by decide) rfl,
   (c6_marked_image_fallback (okEnv 1) "scroll dx=0 dy=-3" (some 1) (some 2) "step_1.png"
      initState).2.2.1 (by decide)⟩

/-- Claim C7, counterexample: with configured radius 220 and a click at
(10, 300) — within the radius of the left screen edge — the computed region
is `(0, 80, 440, 440)`, not the square centred on the position, whose left
edge would be −210. -/
theorem c7_counterexample_edge_not_centered :
    crop_region 220 (some 10) (some 300) = some (0, 80, 440, 440) ∧
    centered_square_spec 220 10 300 = (-210, 80, 440, 440) ∧
    crop_region 220 (some 10) (some 300) ≠ some (centered_square_spec 220 10 300) := by
  decide

/-- Claim C7, amended: with a positive configured radius and a present
position, the captured region is the square of side `2×radius` with its
left/top clamped at 0 (`left = max 0 (x−r)`, `top = max 0 (y−r)`); it
coincides with the square centred on the position exactly when the position
is at least the radius away from the left and top edges; with radius 0 or
an absent position the full screen is captured. -/
theorem c7_crop_region_clamped (r xv yv : Int) (hr : 0 < r) :
    crop_region r (some xv) (some yv)
        = some (max 0 (xv - r), max 0 (yv - r), r * 2, r * 2) ∧
    (r ≤ xv → r ≤ yv →
      crop_region r (some xv) (some yv) = some (centered_square_spec r xv yv)) ∧
    (∀ x y, crop_region 0 x y = none) ∧
    (∀ y, crop_region r none y = none) ∧
    (∀ x, crop_region r x none = none) := by
  have hne : r ≠ 0 := hr.ne'
  refine ⟨?_, ?_, ?_, ?_, ?_⟩
  · simp [crop_region, hne]
  · intro hx hy
    have h1 : max 0 (xv - r) = xv - r := max_eq_right (by omega)
    have h2 : max 0 (yv - r) = yv - r := max_eq_right (by omega)
    simp [crop_region, hne, centered_square_spec, h1, h2]
  · intro x y
    simp [crop_region]
  · intro y
    cases y <;> simp [crop_region, hne]
  · intro x
    cases x <;> simp [crop_region, hne]

/-- Witness for `c7_crop_region_clamped`: radius 220 at position (500, 400),
away from the edges, gives the centred square. -/
theorem c7_crop_region_clamped_witness :
    crop_region 220 (some 500) (some 400) = some (centered_square_spec 220 500 400) :=
  (c7_crop_region_clamped 220 500 400 (by decide)).2.1 (by decide) (by decide)

/-- Claim C8: annotating with a present point draws, on a copy of the
source, first the translucent shadow ring (radius `CIRCLE_RADIUS + 2`,
stroke `CIRCLE_WIDTH + 2`) and then the solid ring (radius `CIRCLE_RADIUS`,
stroke `CIRCLE_WIDTH`), both centred at the point; the result has the
source's dimensions and its pixels differ only within the bounding box of
the two rings; annotating with an absent point is a no-op copy. -/
theorem c8_annotate_properties (im : Img) (cx cy : Int) :
    (annotate_click_on_image im (some (cx, cy))).w = im.w ∧
    (annotate_click_on_image im (some (cx, cy))).h = im.h ∧
    (∀ x y : Int,
        (x < cx - (CIRCLE_RADIUS + 2) ∨ cx + (CIRCLE_RADIUS + 2) < x ∨
         y < cy - (CIRCLE_RADIUS + 2) ∨ cy + (CIRCLE_RADIUS + 2) < y) →
        (annotate_click_on_image im (some (cx, cy))).px x y = im.px x y) ∧
    annotate_click_on_image im none = im ∧
    annotate_click_on_image im (some (cx, cy)) =
      drawRing
        (drawRing im cx cy (CIRCLE_RADIUS + 2) (CIRCLE_WIDTH + 2)
          (fun c => blend c SHADOW_COLOR.1 SHADOW_COLOR.2))
        cx cy CIRCLE_RADIUS CIRCLE_WIDTH (fun _ => CIRCLE_COLOR) := by
  refine ⟨rfl, rfl, ?_, rfl, rfl⟩
  intro x y hxy
  have hout : x < cx - 20 ∨ cx + 20 < x ∨ y < cy - 20 ∨ cy + 20 < y := by
    simpa [CIRCLE_RADIUS] using hxy
  have hinner : onRing cx cy CIRCLE_RADIUS CIRCLE_WIDTH x y = false :=
    onRing_eq_false_of_outside (by norm_num [CIRCLE_RADIUS])
      (by norm_num [CIRCLE_RADIUS]) hout
  have houter : onRing cx cy (CIRCLE_RADIUS + 2) (CIRCLE_WIDTH + 2) x y = false :=
    onRing_eq_false_of_outside (by norm_num [CIRCLE_RADIUS])
      (by norm_num [CIRCLE_RADIUS]) hout
  simp [annotate_click_on_image, drawRing, hinner, houter]

/-- Witness for `c8_annotate_properties`: a pixel far from the click point
of a concrete image is unchanged, and dimensions are preserved. -/
theorem c8_annotate_properties_witness :
    (annotate_click_on_image testImg (some (100, 100))).px 0 0 = testImg.px 0 0 ∧
    (annotate_click_on_image testImg (some (100, 100))).w = testImg.w :=
  ⟨(c8_annotate_properties testImg 100 100).2.2.1 0 0 (Or.inl (by decide)),
   (c8_annotate_properties testImg 100 100).1⟩

/-- Claim C9: the window inspector catches every failure internally (each
external lookup in `WinEnv` is `Except`-valued and every one is eliminated
by the source's `try` blocks, so `active_window_info` is total); when the
lookups fail it returns `("", "")`, and the triggering step is still
recorded with empty `window_title` and `app_name`. -/
theorem c9_inspector_failure_empty (env : EventEnv) (a : String) (x y : Option Int)
    (img : String) (st : RecState)
    (h1 : env.win.getActiveWindow = Except.error ())
    (h2 : env.win.foregroundWindow = Except.error ()) :
    active_window_info env.win = ("", "") ∧
    (record env a x y img st).steps.length = st.steps.length + 1 ∧
    (lastStep (record env a x y img st)).map
        (fun s => (s.window_title, s.app_name)) = some ("", "") := by
  have hawi := active_window_info_fail env.win h1 h2
  refine ⟨hawi, ?_, ?_⟩
  · rw [record_steps_eq, List.length_append]; rfl
  · simp [lastStep, record_steps_eq, List.getLast?_concat, hawi]

/-- Witness for `c9_inspector_failure_empty` at a fully failing inspector. -/
theorem c9_inspector_failure_empty_witness :
    active_window_info failInspectEnv.win = ("", "") ∧
    (lastStep (record failInspectEnv "click left" (some 1) (some 2) "step_0.png"
        initState)).map (fun s => (s.window_title, s.app_name)) = some ("", "") :=
  ⟨(c9_inspector_failure_empty failInspectEnv "click left" (some 1) (some 2)
      "step_0.png" initState rfl rfl).1,
   (c9_inspector_failure_empty failInspectEnv "click left" (some 1) (some 2)
      "step_0.png" initState rfl rfl).2.2⟩

/-- Claim C10: on a non-Windows platform the inspector's `app_name` is
always the empty string — process-name resolution only happens under the
`is_windows` checks — so every recorded step has `app_name = ""`. -/
theorem c10_non_windows_app_empty (env : EventEnv) (a : String) (x y : Option Int)
    (img : String) (st : RecState) (h : env.win.isWindows = false) :
    (active_window_info env.win).2 = "" ∧
    (lastStep (record env a x y img st)).map (fun s => s.app_name) = some "" := by
  have happ : (active_window_info env.win).2 = "" := by
    unfold active_window_info
    rw [winFallback_of_not_windows env.win _ _ h]
    exact gwBranch_app_of_not_windows env.win h
  refine ⟨happ, ?_⟩
  simp [lastStep, record_steps_eq, List.getLast?_concat, happ]

/-- Witness for `c10_non_windows_app_empty`: on the concrete non-Windows
environment (which does resolve a window title) the recorded step's
`app_name` is empty. -/
theorem c10_non_windows_app_empty_witness :
    (lastStep (record (okEnv 0) "click left" (some 1) (some 2) "step_0.png"
        initState)).map (fun s => s.app_name) = some "" :=
  (c10_non_windows_app_empty (okEnv 0) "click left" (some 1) (some 2) "step_0.png"
    initState rfl).2

end Recorder
